import Mathlib

/-!
# Verification of the GRS autoclave-cycle validator

Shallow embedding of `src/regnault_validator.py` and `src/main.py`.
Python floats are modelled as exact rationals (`ℚ`); Python `int`
truncation, banker's `round`, list indexing (including negative-index
wraparound) and string splitting are modelled explicitly.  Text is
modelled as `List Char`; the model receives the decoded, newline-normalised
file content (text-mode reading with `latin-1` normalises `\r\n` and `\r`
to `\n` before any of the modelled code runs).  Fallible Python code
(statements that may raise an uncaught exception) is modelled with
`Option`, `none` standing for the exception.
-/

set_option maxRecDepth 10000

section

attribute [local semireducible] Rat.add Rat.sub Rat.mul Rat.inv Rat.ofScientific

/-- Characters accepted as whitespace by Python's `str.strip()` / `\s`
(ASCII whitespace, the C0 separators, NEL and NBSP — the ones that exist
in `latin-1`-decoded text). -/
def isPySpace (c : Char) : Bool :=
  c.toNat = 32 || (9 ≤ c.toNat && c.toNat ≤ 13) || (28 ≤ c.toNat && c.toNat ≤ 31) ||
    c.toNat = 133 || c.toNat = 160

/-- Python `str.strip()`: drop leading and trailing whitespace. -/
def pyStrip (l : List Char) : List Char :=
  ((l.dropWhile isPySpace).reverse.dropWhile isPySpace).reverse

/-- Python's substring test `needle in hay`. -/
def containsSub (hay needle : List Char) : Bool :=
  match hay with
  | [] => needle.isEmpty
  | _ :: t => needle.isPrefixOf hay || containsSub t needle

/-- Python `s.split(sep)` for a one-character separator: always returns at
least one (possibly empty) piece, no collapsing of adjacent separators. -/
def splitOnChar (c : Char) : List Char → List (List Char)
  | [] => [[]]
  | x :: xs =>
    if x = c then [] :: splitOnChar c xs
    else
      match splitOnChar c xs with
      | [] => [[x]]
      | y :: ys => (x :: y) :: ys

/-- Characters on which Python `str.splitlines()` breaks (within the
`latin-1` range; `\r\n` is handled as a single break in `pySplitlines`). -/
def isLineBreak (c : Char) : Bool :=
  c.toNat = 10 || (11 ≤ c.toNat && c.toNat ≤ 13) || (28 ≤ c.toNat && c.toNat ≤ 30) ||
    c.toNat = 133

/-- Worker for `pySplitlines`: `acc` holds the current line reversed, and
`prevCR` records that the previous character was a carriage return, so
that the line feed of a `\r\n` pair is not counted as a second break. -/
def pySplitlinesGo (prevCR : Bool) (acc : List Char) : List Char → List (List Char)
  | [] => if acc.isEmpty then [] else [acc.reverse]
  | c :: rest =>
    if prevCR ∧ c.toNat = 10 then
      pySplitlinesGo false acc rest
    else if c.toNat = 13 then
      acc.reverse :: pySplitlinesGo true [] rest
    else if isLineBreak c then
      acc.reverse :: pySplitlinesGo false [] rest
    else
      pySplitlinesGo false (c :: acc) rest

/-- Python `str.splitlines()`: no trailing empty line for text ending in a
line break; the empty string has no lines. -/
def pySplitlines (s : List Char) : List (List Char) :=
  pySplitlinesGo false [] s

/-- Numeric value of a digit string (most significant digit first). -/
def digitsVal (l : List Char) : ℕ :=
  l.foldl (fun a c => 10 * a + (c.toNat - 48)) 0

/-- The optional exponent tail of a Python float literal: either nothing,
or `e`/`E`, an optional sign and at least one digit, consuming the whole
remaining input.  Returns the exponent value. -/
def pyFloatExp (l : List Char) : Option ℤ :=
  match l with
  | [] => some 0
  | c :: r =>
    if c = 'e' ∨ c = 'E' then
      let signed : ℤ × List Char :=
        match r with
        | '+' :: t => (1, t)
        | '-' :: t => (-1, t)
        | _ => (1, r)
      let ds := signed.2.takeWhile Char.isDigit
      if ds.isEmpty ∨ ¬(signed.2.dropWhile Char.isDigit).isEmpty then none
      else some (signed.1 * (digitsVal ds : ℤ))
    else none

/-- Python `float(s)` on the literal grammar
`[ws] [sign] (digits [. digits] | digits . | . digits) [(e|E) [sign] digits] [ws]`,
with the result as an exact rational.  The exotic accepted forms
(`inf`, `nan`, digit-group underscores) are not modelled; none of them can
be produced by the repository's inputs of interest. -/
def pyFloat (s : List Char) : Option ℚ :=
  let t := pyStrip s
  let signed : ℚ × List Char :=
    match t with
    | '+' :: r => (1, r)
    | '-' :: r => (-1, r)
    | _ => (1, t)
  let ip := signed.2.takeWhile Char.isDigit
  let r1 := signed.2.dropWhile Char.isDigit
  match r1 with
  | '.' :: r2 =>
    let fp := r2.takeWhile Char.isDigit
    let r3 := r2.dropWhile Char.isDigit
    if ip.isEmpty ∧ fp.isEmpty then none
    else
      (pyFloatExp r3).map fun e =>
        signed.1 * ((digitsVal ip : ℚ) + (digitsVal fp : ℚ) / 10 ^ fp.length) * 10 ^ e
  | _ =>
    if ip.isEmpty then none
    else (pyFloatExp r1).map fun e => signed.1 * (digitsVal ip : ℚ) * 10 ^ e

/-- Python `int(x)` for a float `x`: truncation toward zero. -/
def pyInt (q : ℚ) : ℤ :=
  q.num.tdiv q.den

/-- Python `round(x)` (one-argument form): round half to even. -/
def pyRound (q : ℚ) : ℤ :=
  let f := ⌊q⌋
  let r := q - (f : ℚ)
  if r < 1 / 2 then f
  else if 1 / 2 < r then f + 1
  else if f % 2 = 0 then f else f + 1

/-- Python list indexing `l[i]`: non-negative indices from the front,
negative indices wrap from the back, anything else raises `IndexError`
(modelled as `none`). -/
def pyListGet {α : Type} (l : List α) (i : ℤ) : Option α :=
  if 0 ≤ i then l.get? i.toNat
  else if (-i).toNat ≤ l.length then l.get? (l.length - (-i).toNat)
  else none

/-! ## `src/regnault_validator.py` -/

/-- Row 134 of `REGNAULT_TABLE`. -/
def row134 : List (ℚ × ℚ) :=
  [(299.2, 309.2), (300.1, 310.1), (301.0, 311.0), (301.9, 311.9),
   (302.8, 312.8), (303.7, 313.7), (304.6, 314.6), (305.5, 315.5),
   (306.4, 316.4), (307.3, 317.3)]

/-- Row 135 of `REGNAULT_TABLE`. -/
def row135 : List (ℚ × ℚ) :=
  [(308.2, 318.2), (309.1, 319.1), (310.0, 320.0), (311.0, 321.0),
   (311.9, 321.9), (312.8, 322.8), (313.7, 323.7), (314.6, 324.6),
   (315.6, 325.6), (316.5, 326.5)]

/-- Row 136 of `REGNAULT_TABLE`. -/
def row136 : List (ℚ × ℚ) :=
  [(317.4, 327.4), (318.4, 328.4), (319.3, 329.3), (320.2, 330.2),
   (321.2, 331.2), (322.1, 332.1), (323.1, 333.1), (324.0, 334.0),
   (325.0, 335.0), (325.9, 335.9)]

/-- Row 137 of `REGNAULT_TABLE` (single entry for 137.0 °C). -/
def row137 : List (ℚ × ℚ) :=
  [(326.9, 336.9)]

/-- The `REGNAULT_TABLE` dict: integer °C → list of (min, max) kPa pairs. -/
def REGNAULT_TABLE (k : ℤ) : Option (List (ℚ × ℚ)) :=
  if k = 134 then some row134
  else if k = 135 then some row135
  else if k = 136 then some row136
  else if k = 137 then some row137
  else none

/-- The status strings returned by `check_pressure_conformity`. -/
inductive RegnaultStatus where
  | conforme
  | nonConforme
  | temperatureHorsTable
  | decimaleHorsTable
deriving DecidableEq, Repr

/-- `temp_dec_index` as computed in `check_pressure_conformity`:
`int(round((temperature - temp_int) * 10))`. -/
def temp_dec_index (temperature : ℚ) : ℤ :=
  pyRound ((temperature - (pyInt temperature : ℚ)) * 10)

/-- `check_pressure_conformity(temperature, pressure)`.  The result is
`none` if the Python code would raise (only conceivable via `IndexError`
on a negative decile index below `-len`), otherwise
`some (status, expected_range)`. -/
def check_pressure_conformity (temperature pressure : ℚ) :
    Option (RegnaultStatus × Option (ℚ × ℚ)) :=
  let temp_int := pyInt temperature
  match REGNAULT_TABLE temp_int with
  | none => some (.temperatureHorsTable, none)
  | some pressure_ranges =>
    if (pressure_ranges.length : ℤ) ≤ temp_dec_index temperature then
      some (.decimaleHorsTable, none)
    else
      match pyListGet pressure_ranges (temp_dec_index temperature) with
      | none => none
      | some (min_pressure, max_pressure) =>
        if min_pressure ≤ pressure ∧ pressure ≤ max_pressure then
          some (.conforme, some (min_pressure, max_pressure))
        else
          some (.nonConforme, some (min_pressure, max_pressure))

/-- The `line_name` strings of a scanned line (`"Palier de stérilisation"`,
`"Dévaporisation"`, `"Inconnu"`). -/
inductive LineName where
  | palierDeSterilisation
  | devaporisation
  | inconnu
deriving DecidableEq, Repr

/-- One result dict appended by `validate_grs_file_content`: either a full
entry or the parse-error entry (whose dict has no `status`, `temperature`,
`pressure` or `expected_range` key, but keeps the 1-based `line_number`
and the original line). -/
inductive ScanResult where
  | ok (line_number : ℕ) (line_name : LineName) (temperature pressure : ℚ)
      (expected_range : Option (ℚ × ℚ)) (status : RegnaultStatus)
  | parseError (line_number : ℕ) (original_line : List Char)
deriving DecidableEq, Repr

/-- Read the `status` key of a result dict: `none` models the `KeyError`
raised on a parse-error entry. -/
def statusOf : ScanResult → Option RegnaultStatus
  | .ok _ _ _ _ _ status => some status
  | .parseError _ _ => none

/-- The opening-brace character, `line.split('\x7b')`'s separator. -/
def braceChar : Char := Char.ofNat 123

/-- `line.split('\x7b')[0].split(';')`: the semicolon-separated fields of
the part of the line before the first opening brace. -/
def lineFields (line : List Char) : List (List Char) :=
  splitOnChar ';' ((splitOnChar braceChar line).headD [])

/-- `float(data[0]) / 10.0` and `float(data[2]) / 10.0` on the fields of a
scanned line; `none` models the `IndexError`/`ValueError` caught by the
scanner's `except` clause. -/
def extractTP (line : List Char) : Option (ℚ × ℚ) :=
  let data := lineFields line
  match pyFloat (data.headD []) with
  | none => none
  | some t =>
    match data.get? 2 with
    | none => none
    | some f2 =>
      match pyFloat f2 with
      | none => none
      | some p => some (t / 10, p / 10)

/-- The body of `validate_grs_file_content`'s loop for the line at 0-based
index `i`: `none` when the line carries no marker and is skipped, otherwise
the result dict appended to `results` (a parse-error entry when the `try`
block raises `IndexError` or `ValueError`). -/
def scanLine (i : ℕ) (line : List Char) : Option ScanResult :=
  if containsSub line "Palier de st".data || containsSub line "vaporisation".data then
    some (match extractTP line with
      | none => .parseError (i + 1) line
      | some (temperature, pressure) =>
        let line_name :=
          if containsSub line "Palier de st".data then LineName.palierDeSterilisation
          else if containsSub line "vaporisation".data then LineName.devaporisation
          else LineName.inconnu
        match check_pressure_conformity temperature pressure with
        | none => .parseError (i + 1) line
        | some (status, pressure_range) =>
          .ok (i + 1) line_name temperature pressure pressure_range status)
  else none

/-- `validate_grs_file_content(file_content)`: scan every line (1-based
numbering) and collect the result dicts. -/
def validate_grs_file_content (file_content : List Char) : List ScanResult :=
  ((pySplitlines file_content).enum).filterMap fun p => scanLine p.1 p.2

/-! ## `src/main.py` -/

/-- Everything after the first occurrence of `c` (the third component of
Python's `str.partition(c)` when `c` occurs; `[]` otherwise). -/
def afterFirst (c : Char) : List Char → List Char
  | [] => []
  | x :: xs => if x = c then xs else afterFirst c xs

/-- Match a literal pattern at the front of the input, returning the rest. -/
def stripPrefixCh : List Char → List Char → Option (List Char)
  | [], s => some s
  | _, [] => none
  | p :: ps, c :: cs => if p = c then stripPrefixCh ps cs else none

/-- `\d{3,4}` immediately followed by the literal `next`, as the regex
engine matches it (greedy with backtracking): the maximal digit run of
length at most 4, of length at least 3, whose following character is
`next`.  Returns the digit group and the rest after `next`. -/
def digits34Then (next : Char) (s : List Char) : Option (List Char × List Char) :=
  let ds := (s.take 4).takeWhile Char.isDigit
  if ds.length < 3 then none
  else
    match s.drop ds.length with
    | c :: r => if c = next then some (ds, r) else none
    | [] => none

/-- Trailing `\d{3,4}` with nothing after it in the pattern: the maximal
digit run of length at most 4, of length at least 3. -/
def digits34End (s : List Char) : Option (List Char) :=
  let ds := (s.take 4).takeWhile Char.isDigit
  if ds.length < 3 then none else some ds

/-- The pattern `Injection de vapeur\((\d{3,4})\[(\d{3,4})` anchored at
the front of the input; returns the two digit groups. -/
def matchMesuresHere (s : List Char) : Option (List Char × List Char) :=
  match stripPrefixCh "Injection de vapeur(".data s with
  | none => none
  | some r1 =>
    match digits34Then '[' r1 with
    | none => none
    | some (g1, r2) =>
      match digits34End r2 with
      | none => none
      | some g2 => some (g1, g2)

/-- `re.search` of the measurement pattern: try every start position, left
to right. -/
def searchMesures (s : List Char) : Option (List Char × List Char) :=
  match matchMesuresHere s, s with
  | some r, _ => some r
  | none, [] => none
  | none, _ :: t => searchMesures t

/-- `re.match(r'(\d{2}:\d{2}:\d{2})', s)`: the leading timestamp, or the
empty string when the pattern does not match (mirroring the code's `""`
default for `horodatage`). -/
def matchHorodatage (s : List Char) : List Char :=
  match s with
  | a :: b :: c :: d :: e :: f :: g :: h :: _ =>
    if a.isDigit ∧ b.isDigit ∧ c = ':' ∧ d.isDigit ∧ e.isDigit ∧ f = ':' ∧
        g.isDigit ∧ h.isDigit then
      [a, b, c, d, e, f, g, h]
    else []
  | _ => []

/-- One `phase_info` dict built by pass 1 of `analyser_cycle_complet_grs`. -/
structure PhaseInfo where
  horodatage : List Char
  temperature_C : ℚ
  pression_kPa : ℚ
  conforme : Bool
deriving DecidableEq, Repr

/-- Pass 1 of `analyser_cycle_complet_grs` for one (already stripped)
line: `none` when any of the `continue` branches is taken, otherwise the
appended `phase_info`. -/
def parsePhaseLine (ligne_str : List Char) : Option PhaseInfo :=
  if ¬ containsSub ligne_str "Injection de vapeur".data then none
  else if ¬ containsSub ligne_str [braceChar] then none
  else
    let partie_evenement := pyStrip (afterFirst braceChar ligne_str)
    match searchMesures partie_evenement with
    | none => none
    | some (temperature_str, pression_str) =>
      match pyFloat temperature_str, pyFloat pression_str with
      | some tv, some pv =>
        let temperature_phase := tv / 10
        let pression_vide := pv / 10
        let horodatage := matchHorodatage partie_evenement
        some { horodatage := horodatage, temperature_C := temperature_phase,
               pression_kPa := pression_vide,
               conforme := decide (pression_vide ≤ 18) }
      | _, _ => none

/-- Pass 2 of `analyser_cycle_complet_grs` for one (already stripped)
line: for a line starting with `#`, the key/value pair captured by
`^#(\d+)\s*(.*)` with the value stripped. -/
def parseSummaryLine (ligne_str : List Char) : Option (List Char × List Char) :=
  match ligne_str with
  | [] => none
  | c :: rest =>
    if c = '#' then
      let ds := rest.takeWhile Char.isDigit
      if ds.isEmpty then none
      else some (ds, pyStrip (rest.drop ds.length))
    else none

/-- `donnees_resume[key]`: last occurrence wins, `none` when absent. -/
def resumeLookup (entries : List (List Char × List Char)) (key : List Char) :
    Option (List Char) :=
  entries.foldl (fun acc kv => if kv.1 = key then some kv.2 else acc) none

/-- `float(donnees_resume[key]) / 10.0` for an optional summary field.
The outer `Option` is the uncaught `ValueError` that `float` raises on a
present but non-numeric value (only `FileNotFoundError` is caught in
`analyser_cycle_complet_grs`); the inner `Option` is absence of the key. -/
def summaryField (entries : List (List Char × List Char)) (key : List Char) :
    Option (Option ℚ) :=
  match resumeLookup entries key with
  | none => some none
  | some v =>
    match pyFloat v with
    | none => none
    | some q => some (some (q / 10))

/-- The `donnees` dict returned by `analyser_cycle_complet_grs`:
`phases_de_vide`, the pressures of the compliant phases, and the two
optional summary temperatures. -/
structure CycleData where
  phases_de_vide : List PhaseInfo
  phases_de_vide_kPa : List ℚ
  temp_min_C : Option ℚ
  temp_max_C : Option ℚ
deriving DecidableEq, Repr

/-- `analyser_cycle_complet_grs`, applied to the decoded file content (the
file read itself is an external collaborator; a missing file never reaches
this logic).  `none` models the uncaught `ValueError` of a malformed
summary value. -/
def analyser_cycle_complet_grs (content : List Char) : Option CycleData :=
  let lignes := (splitOnChar (Char.ofNat 10) content).map pyStrip
  let phases := lignes.filterMap parsePhaseLine
  let entries := lignes.filterMap parseSummaryLine
  match summaryField entries "40".data with
  | none => none
  | some tmin =>
    match summaryField entries "41".data with
    | none => none
    | some tmax =>
      some { phases_de_vide := phases,
             phases_de_vide_kPa := (phases.filter (fun ph => ph.conforme)).map
               (fun ph => ph.pression_kPa),
             temp_min_C := tmin, temp_max_C := tmax }

/-- Rule 1 of `valider_donnees_completes` (plateau temperature): its
contribution to `validation_globale_ok`. -/
def regle1 (donnees : CycleData) : Bool :=
  match donnees.temp_min_C, donnees.temp_max_C with
  | some t_min, some t_max => decide (t_min ≥ 134.3) && decide (t_max ≤ 136.4)
  | _, _ => false

/-- Rule 2 of `valider_donnees_completes` (vacuum phases): its
contribution to `validation_globale_ok`.  `phases_de_vide` is always a key
of the dict, so the guard is the truthiness (non-emptiness) of the list;
`is_pressions_ok` is assigned `is_nombre_ok` and adds nothing. -/
def regle2 (donnees : CycleData) : Bool :=
  match donnees.phases_de_vide with
  | [] => false
  | _ =>
    let phases_conformes := donnees.phases_de_vide.filter (fun ph => ph.conforme)
    decide (phases_conformes.length ≥ 8)

/-- The rule-3 result loop: `regnault_conforme` starts `True` and is set
`False` on any non-`Conforme` status; reading `result['status']` on a
parse-error entry raises `KeyError` (`none`), which the surrounding
`except Exception` turns into a failure. -/
def regle3Go : List ScanResult → Bool → Option Bool
  | [], regnault_conforme => some regnault_conforme
  | result :: rest, regnault_conforme =>
    match statusOf result with
    | none => none
    | some st =>
      regle3Go rest (if st ≠ RegnaultStatus.conforme then false else regnault_conforme)

/-- Rule 3 of `valider_donnees_completes` (Régnault): its contribution to
`validation_globale_ok`, applied to the re-read file content.  An empty
result list fails, an exception inside the `try` fails, otherwise the
loop's `regnault_conforme` flag decides. -/
def regle3 (file_content : List Char) : Bool :=
  match validate_grs_file_content file_content with
  | [] => false
  | results => (regle3Go results true).getD false

/-- The aggregate verdict of `valider_donnees_completes`:
`validation_globale_ok` starts `True` and is cleared by every failing
rule, so its final value is rule 1 AND rule 2 AND rule 3 (rule 3
evaluated on the re-read file content, here passed as the second
argument). -/
def validation_globale_ok (donnees : CycleData) (file_content : List Char) : Bool :=
  regle1 donnees && regle2 donnees && regle3 file_content

/-- Example phase used for concrete rule-2 instances: a compliant
injection (17.5 kPa ≤ 18 kPa). -/
def phaseConformeEx : PhaseInfo :=
  { horodatage := [], temperature_C := 135.3, pression_kPa := 17.5, conforme := true }

/-- Example phase used for concrete rule-2 instances: a non-compliant
injection (18.5 kPa > 18 kPa). -/
def phaseNonConformeEx : PhaseInfo :=
  { horodatage := [], temperature_C := 135.3, pression_kPa := 18.5, conforme := false }

/-- Concrete vacuum line used to instantiate the round-trip claim. -/
def ligneVapeurEx : List Char :=
  ("abc;427;\x7b10:15:02 Injection de vapeur(1353[0175 fin").data

/-- Example record for the aggregate-verdict instance: eight compliant
phases and in-range summary temperatures, so rules 1 and 2 pass. -/
def donneesConformesEx : CycleData :=
  { phases_de_vide := List.replicate 8 phaseConformeEx,
    phases_de_vide_kPa := List.replicate 8 17.5,
    temp_min_C := some 134.3, temp_max_C := some 136.4 }

/-- Example raw text for the aggregate-verdict instance: one
non-conformant plateau line (340.0 kPa is outside the 135.0 °C range)
between two conformant scanned lines. -/
def contenuRegle3Ex : List Char :=
  ("1350;1;3100;Palier de st\n1350;1;3400;Palier de st\n1350;1;3100; Dévaporisation").data

/-! ## Theorems -/

/-- Helper: Python indexing at a non-negative index is front indexing. -/
theorem pyListGet_nonneg {α : Type} (l : List α) (i : ℤ) (h : 0 ≤ i) :
    pyListGet l i = l.get? i.toNat := by
  simp [pyListGet, h]

/-- C1 counterexample: at temperature 135.3 the code resolves decile 3,
whose row-135 cell is (311.0, 321.0), so `check(135.3, 310.0)` is
`NonConforme` — not `Conforme` with range (310.0, 320.0) as claimed. -/
theorem claim1_counterexample :
    check_pressure_conformity 135.3 310.0 ≠
      some (RegnaultStatus.conforme, some (310.0, 320.0)) ∧
    check_pressure_conformity 135.3 310.0 =
      some (RegnaultStatus.nonConforme, some (311.0, 321.0)) := by
  constructor
  · decide
  · decide

/-- C1 (amended): for the Regnault check at temperature 135.3 the decile
resolves to 3, whose expected range is min=311.0, max=321.0; both
`check(135.3, 310.0)` and `check(135.3, 309.9)` return `NonConforme`
with that range. -/
theorem claim1_amended :
    temp_dec_index 135.3 = 3 ∧
    check_pressure_conformity 135.3 310.0 =
      some (RegnaultStatus.nonConforme, some (311.0, 321.0)) ∧
    check_pressure_conformity 135.3 309.9 =
      some (RegnaultStatus.nonConforme, some (311.0, 321.0)) := by
  refine ⟨by decide, by decide, by decide⟩

/-- C6: for every pressure `p`, `check(137.1, p)` returns
`DecimalOutOfTable` with no range, and `check(133.9, p)` and
`check(138.0, p)` return `TemperatureOutOfTable` with no range. -/
theorem claim6 (p : ℚ) :
    check_pressure_conformity 137.1 p =
      some (RegnaultStatus.decimaleHorsTable, none) ∧
    check_pressure_conformity 133.9 p =
      some (RegnaultStatus.temperatureHorsTable, none) ∧
    check_pressure_conformity 138.0 p =
      some (RegnaultStatus.temperatureHorsTable, none) := by
  refine ⟨rfl, rfl, rfl⟩

/-- Helper: when the degree is a table key and the decile index is in
bounds, the check returns `Conforme`/`NonConforme` together with a range
cell taken from the row. -/
theorem check_in_table (temperature pressure : ℚ) (row : List (ℚ × ℚ))
    (hrow : REGNAULT_TABLE (pyInt temperature) = some row)
    (h0 : 0 ≤ temp_dec_index temperature)
    (hlt : temp_dec_index temperature < (row.length : ℤ)) :
    ∃ st mn mx, check_pressure_conformity temperature pressure =
      some (st, some (mn, mx)) ∧ (mn, mx) ∈ row := by
  have htn : (temp_dec_index temperature).toNat < row.length := by omega
  have hc : row.get? (temp_dec_index temperature).toNat =
      some (row.get ⟨(temp_dec_index temperature).toNat, htn⟩) :=
    List.get?_eq_get htn
  have hmem : row.get ⟨(temp_dec_index temperature).toNat, htn⟩ ∈ row :=
    List.get_mem row _ _
  set cell := row.get ⟨(temp_dec_index temperature).toNat, htn⟩ with hcell
  obtain ⟨mn, mx⟩ := cell
  have hnotle : ¬ ((row.length : ℤ) ≤ temp_dec_index temperature) := by omega
  refine ⟨if mn ≤ pressure ∧ pressure ≤ mx then .conforme else .nonConforme,
    mn, mx, ?_, hmem⟩
  simp only [check_pressure_conformity]
  rw [hrow]
  dsimp only
  rw [if_neg hnotle, pyListGet_nonneg _ _ h0, hc]
  by_cases hcmp : mn ≤ pressure ∧ pressure ≤ mx
  · simp [hcmp]
  · simp [hcmp]

/-- Every cell of row 134 has `min ≤ max`. -/
theorem row134_cells : ∀ c ∈ row134, c.1 ≤ c.2 := by decide

/-- Every cell of row 135 has `min ≤ max`. -/
theorem row135_cells : ∀ c ∈ row135, c.1 ≤ c.2 := by decide

/-- Every cell of row 136 has `min ≤ max`. -/
theorem row136_cells : ∀ c ∈ row136, c.1 ≤ c.2 := by decide

/-- The single cell of row 137 has `min ≤ max`. -/
theorem row137_cells : ∀ c ∈ row137, c.1 ≤ c.2 := by decide

/-- C8: for every temperature whose integer part is 134-136 with decile
(as recovered by rounding) in 0-9, and for 137.0 exactly, and for every
pressure, the check returns a range with `min ≤ max` — covering all 31
table cells. -/
theorem claim8 (t p : ℚ)
    (h : ((pyInt t = 134 ∨ pyInt t = 135 ∨ pyInt t = 136) ∧
          0 ≤ temp_dec_index t ∧ temp_dec_index t ≤ 9) ∨ t = 137.0) :
    ∃ st mn mx, check_pressure_conformity t p = some (st, some (mn, mx)) ∧
      mn ≤ mx := by
  rcases h with ⟨hk, h0, h9⟩ | h137
  · rcases hk with hk | hk | hk
    · obtain ⟨st, mn, mx, hck, hmem⟩ :=
        check_in_table t p row134 (by rw [hk]; rfl) h0 (by simp [row134]; omega)
      exact ⟨st, mn, mx, hck, row134_cells _ hmem⟩
    · obtain ⟨st, mn, mx, hck, hmem⟩ :=
        check_in_table t p row135 (by rw [hk]; rfl) h0 (by simp [row135]; omega)
      exact ⟨st, mn, mx, hck, row135_cells _ hmem⟩
    · obtain ⟨st, mn, mx, hck, hmem⟩ :=
        check_in_table t p row136 (by rw [hk]; rfl) h0 (by simp [row136]; omega)
      exact ⟨st, mn, mx, hck, row136_cells _ hmem⟩
  · subst h137
    obtain ⟨st, mn, mx, hck, hmem⟩ :=
      check_in_table 137.0 p row137 (by decide) (by decide) (by decide)
    exact ⟨st, mn, mx, hck, row137_cells _ hmem⟩

/-- Witness for C8 at temperature 135.3, pressure 0. -/
theorem claim8_witness :
    ∃ st mn mx, check_pressure_conformity 135.3 0 = some (st, some (mn, mx)) ∧
      mn ≤ mx :=
  claim8 135.3 0 (Or.inl (by decide))

/-- Helper: on non-negative rationals, Python `int` truncation is the
floor. -/
theorem pyInt_eq_floor (q : ℚ) (h : 0 ≤ q) : pyInt q = ⌊q⌋ := by
  rw [pyInt, Int.tdiv_eq_ediv (Rat.num_nonneg.mpr h) (Int.natCast_nonneg q.den)]
  exact Rat.floor_def.symm

/-- Helper: Python `round` of a non-negative value is non-negative. -/
theorem pyRound_nonneg (q : ℚ) (h : 0 ≤ q) : 0 ≤ pyRound q := by
  have hf : 0 ≤ ⌊q⌋ := Int.floor_nonneg.mpr h
  simp only [pyRound]
  split_ifs <;> omega

/-- C9 (implicit): for every non-negative temperature and every pressure,
`check_pressure_conformity` is total — it returns a classification without
raising; the computed decile index is never negative, so whenever the
degree row is indexed the access is in bounds and the silent
negative-index wraparound of Python list indexing cannot occur. -/
theorem claim9 (temperature pressure : ℚ) (h : 0 ≤ temperature) :
    (check_pressure_conformity temperature pressure).isSome = true ∧
    0 ≤ temp_dec_index temperature ∧
    ∀ row : List (ℚ × ℚ), REGNAULT_TABLE (pyInt temperature) = some row →
      temp_dec_index temperature < (row.length : ℤ) →
      (pyListGet row (temp_dec_index temperature)).isSome = true := by
  have hint : (pyInt temperature : ℚ) ≤ temperature := by
    rw [pyInt_eq_floor _ h]
    exact Int.floor_le temperature
  have hd0 : 0 ≤ temp_dec_index temperature := by
    apply pyRound_nonneg
    have h1 : 0 ≤ temperature - (pyInt temperature : ℚ) := by linarith
    positivity
  have hidx : ∀ row : List (ℚ × ℚ), REGNAULT_TABLE (pyInt temperature) = some row →
      temp_dec_index temperature < (row.length : ℤ) →
      (pyListGet row (temp_dec_index temperature)).isSome = true := by
    intro row hr hlt
    rw [pyListGet_nonneg _ _ hd0]
    have htn : (temp_dec_index temperature).toNat < row.length := by omega
    rw [List.get?_eq_get htn]
    rfl
  refine ⟨?_, hd0, hidx⟩
  cases hr : REGNAULT_TABLE (pyInt temperature) with
  | none =>
    simp only [check_pressure_conformity]
    rw [hr]
    rfl
  | some row =>
    simp only [check_pressure_conformity]
    rw [hr]
    dsimp only
    by_cases hlen : (row.length : ℤ) ≤ temp_dec_index temperature
    · rw [if_pos hlen]
      rfl
    · rw [if_neg hlen]
      have hs := hidx row hr (by omega)
      obtain ⟨cell, hcell⟩ := Option.isSome_iff_exists.mp hs
      rw [hcell]
      obtain ⟨mn, mx⟩ := cell
      dsimp only
      split_ifs <;> rfl

/-- Witness for C9 at temperature 0, pressure 0. -/
theorem claim9_witness :
    (check_pressure_conformity 0 0).isSome = true ∧
    0 ≤ temp_dec_index 0 ∧
    ∀ row : List (ℚ × ℚ), REGNAULT_TABLE (pyInt 0) = some row →
      temp_dec_index 0 < (row.length : ℤ) →
      (pyListGet row (temp_dec_index 0)).isSome = true :=
  claim9 0 0 (by decide)

/-- Helper: field extraction fails when there are fewer than 3 fields or
field 0 or field 2 does not convert to a number. -/
theorem extractTP_eq_none (line : List Char)
    (hbad : (lineFields line).length < 3 ∨
      pyFloat ((lineFields line).headD []) = none ∨
      pyFloat ((lineFields line).getD 2 []) = none) :
    extractTP line = none := by
  simp only [extractTP]
  cases hf0 : pyFloat ((lineFields line).headD []) with
  | none => rfl
  | some t =>
    by_cases hlen : (lineFields line).length < 3
    · rw [List.get?_eq_none.mpr (by omega)]
    · rcases hbad with hbad | hbad | hbad
      · omega
      · rw [hbad] at hf0
        cases hf0
      · have h2 : (lineFields line).get? 2 =
            some ((lineFields line).getD 2 []) := by
          rw [List.getD_eq_get?]
          cases hg : (lineFields line).get? 2 with
          | none => rw [List.get?_eq_none] at hg; omega
          | some v => rfl
        rw [h2]
        dsimp only
        rw [hbad]

/-- C2: every scanned line that carries a plateau/devaporization marker
but has fewer than 3 semicolon-delimited fields before the first opening
brace, or whose field 0 or field 2 does not convert to a number, is
recorded as a parse-error entry (no temperature/pressure fields) that
still carries the 1-based line number and the original line text. -/
theorem claim2 (file_content : List Char) (i : ℕ) (line : List Char)
    (hline : (pySplitlines file_content).get? i = some line)
    (hmark : (containsSub line "Palier de st".data ||
      containsSub line "vaporisation".data) = true)
    (hbad : (lineFields line).length < 3 ∨
      pyFloat ((lineFields line).headD []) = none ∨
      pyFloat ((lineFields line).getD 2 []) = none) :
    ScanResult.parseError (i + 1) line ∈ validate_grs_file_content file_content := by
  have hscan : scanLine i line = some (ScanResult.parseError (i + 1) line) := by
    simp only [scanLine, hmark, if_true]
    rw [extractTP_eq_none line hbad]
  have henum : (i, line) ∈ (pySplitlines file_content).enum := by
    have hg := List.get?_enum (pySplitlines file_content) i
    rw [hline] at hg
    exact List.get?_mem hg
  exact List.mem_filterMap.mpr ⟨(i, line), henum, hscan⟩

/-- Witness for C2 on a one-line file whose single line is the bare
devaporization marker. -/
theorem claim2_witness :
    ScanResult.parseError 1 "vaporisation".data ∈
      validate_grs_file_content "vaporisation".data :=
  claim2 "vaporisation".data 0 "vaporisation".data (by decide) (by decide)
    (Or.inl (by decide))

/-- Helper: splitting on a character that does not occur returns the
whole string as the only piece. -/
theorem splitOnChar_of_not_mem (c : Char) (l : List Char)
    (h : containsSub l [c] = false) : splitOnChar c l = [l] := by
  induction l with
  | nil => rfl
  | cons x xs ih =>
    simp only [containsSub, List.isPrefixOf, Bool.and_eq_true, Bool.or_eq_false_iff] at h
    obtain ⟨h1, h2⟩ := h
    have hx : ¬ x = c := by
      intro he
      subst he
      simp [List.isPrefixOf] at h1
    simp only [splitOnChar, if_neg hx]
    rw [ih h2]

/-- C10 (implicit): a line containing a plateau or devaporization marker
but no opening brace is still processed (not skipped): its fields are the
semicolon-split of the entire line, with field 0 as the temperature code
and field 2 as the pressure code, each divided by 10. -/
theorem claim10 (i : ℕ) (line : List Char)
    (hmark : (containsSub line "Palier de st".data ||
      containsSub line "vaporisation".data) = true)
    (hnob : containsSub line [braceChar] = false) :
    (scanLine i line).isSome = true ∧
    lineFields line = splitOnChar ';' line ∧
    ∀ t0 p0 f2, pyFloat ((splitOnChar ';' line).headD []) = some t0 →
      (splitOnChar ';' line).get? 2 = some f2 →
      pyFloat f2 = some p0 →
      extractTP line = some (t0 / 10, p0 / 10) := by
  have hfields : lineFields line = splitOnChar ';' line := by
    unfold lineFields
    rw [splitOnChar_of_not_mem braceChar line hnob]
    rfl
  refine ⟨?_, hfields, ?_⟩
  · simp only [scanLine, hmark, if_true]
    rfl
  · intro t0 p0 f2 h1 h2 h3
    simp only [extractTP, hfields]
    rw [h1]
    dsimp only
    rw [h2]
    dsimp only
    rw [h3]

/-- Witness for C10 on a brace-free plateau line. -/
theorem claim10_witness :
    (scanLine 0 ("1353;x;0175;Palier de st").data).isSome = true ∧
    lineFields ("1353;x;0175;Palier de st").data =
      splitOnChar ';' ("1353;x;0175;Palier de st").data ∧
    extractTP ("1353;x;0175;Palier de st").data = some (1353 / 10, 175 / 10) := by
  have h := claim10 0 ("1353;x;0175;Palier de st").data (by decide) (by decide)
  exact ⟨h.1, h.2.1, h.2.2 1353 175 "0175".data (by decide) (by decide) (by decide)⟩

/-- Helper: the rule-3 loop ends with `regnault_conforme = True` and no
exception exactly when the accumulator started `true` and every entry has
status `Conforme`. -/
theorem regle3Go_eq_some_true (l : List ScanResult) (acc : Bool) :
    regle3Go l acc = some true ↔
      (acc = true ∧ ∀ r ∈ l, statusOf r = some RegnaultStatus.conforme) := by
  induction l generalizing acc with
  | nil => simp [regle3Go]
  | cons r rest ih =>
    cases hst : statusOf r with
    | none =>
      simp only [regle3Go, hst]
      constructor
      · intro hcontra
        cases hcontra
      · rintro ⟨-, hall⟩
        have hr := hall r (by simp)
        rw [hst] at hr
        cases hr
    | some st =>
      simp only [regle3Go, hst]
      rw [ih]
      by_cases hc : st = RegnaultStatus.conforme
      · subst hc
        simp [List.forall_mem_cons, hst]
      · rw [if_pos hc]
        constructor
        · rintro ⟨hcontra, -⟩
          cases hcontra
        · rintro ⟨-, hall⟩
          have hr := hall r (by simp)
          rw [hst] at hr
          exact (hc (Option.some.inj hr)).elim

/-- Helper: rule 3 evaluates to `true` exactly when the scan result list
is non-empty and every entry has status `Conforme`. -/
theorem regle3_eq_true_iff (file_content : List Char) :
    regle3 file_content = true ↔
      (validate_grs_file_content file_content ≠ [] ∧
       ∀ r ∈ validate_grs_file_content file_content,
         statusOf r = some RegnaultStatus.conforme) := by
  cases hv : validate_grs_file_content file_content with
  | nil =>
    unfold regle3
    rw [hv]
    simp
  | cons a l =>
    unfold regle3
    rw [hv]
    dsimp only
    constructor
    · intro hgo
      refine ⟨by simp, ?_⟩
      cases hg : regle3Go (a :: l) true with
      | none => rw [hg] at hgo; cases hgo
      | some b =>
        rw [hg] at hgo
        cases b with
        | false => cases hgo
        | true => exact ((regle3Go_eq_some_true (a :: l) true).mp hg).2
    · rintro ⟨-, hall⟩
      rw [(regle3Go_eq_some_true (a :: l) true).mpr ⟨rfl, hall⟩]
      rfl

/-- C3: rule 3 is conformant iff the scan result sequence over the raw
text is non-empty and every entry has status `Conforme` (a parse-error
entry has no status and fails the rule via the caught `KeyError`).  An
empty scan result makes rule 3 false and with it the aggregate verdict
`validation_globale_ok` (rule 1 AND rule 2 AND rule 3); a single
non-`Conforme` entry also makes rule 3 and the aggregate verdict false,
even when rules 1 and 2 pass, as the concrete one-bad-line-among-good
instance shows. -/
theorem claim3 :
    (∀ file_content : List Char, regle3 file_content = true ↔
      (validate_grs_file_content file_content ≠ [] ∧
       ∀ r ∈ validate_grs_file_content file_content,
         statusOf r = some RegnaultStatus.conforme)) ∧
    (∀ (donnees : CycleData) (file_content : List Char),
      validate_grs_file_content file_content = [] →
      regle3 file_content = false ∧
      validation_globale_ok donnees file_content = false) ∧
    (∀ (donnees : CycleData) (file_content : List Char) (r : ScanResult),
      r ∈ validate_grs_file_content file_content →
      statusOf r ≠ some RegnaultStatus.conforme →
      regle3 file_content = false ∧
      validation_globale_ok donnees file_content = false) ∧
    (regle1 donneesConformesEx = true ∧ regle2 donneesConformesEx = true ∧
      regle3 contenuRegle3Ex = false ∧
      validation_globale_ok donneesConformesEx contenuRegle3Ex = false) := by
  refine ⟨regle3_eq_true_iff, ?_, ?_, by decide⟩
  · intro donnees file_content hv
    have h3 : regle3 file_content = false := by
      simp [regle3, hv]
    exact ⟨h3, by simp [validation_globale_ok, h3]⟩
  · intro donnees file_content r hmem hnc
    have h3 : regle3 file_content = false := by
      cases hb : regle3 file_content with
      | false => rfl
      | true =>
        exact absurd (((regle3_eq_true_iff file_content).mp hb).2 r hmem) hnc
    exact ⟨h3, by simp [validation_globale_ok, h3]⟩

/-- Witness for C3: the empty file has an empty scan result, so rule 3
and the aggregate verdict fail. -/
theorem claim3_witness :
    regle3 "".data = false ∧
    validation_globale_ok ⟨[], [], none, none⟩ "".data = false :=
  claim3.2.1 ⟨[], [], none, none⟩ "".data (by decide)

/-- C4: rule 2 is conformant iff at least 8 phases have
`is_compliant == true`; an empty phase list fails; a parsed phase is
compliant iff its pressure is at most 18.0 kPa; 20 phases with only 6
compliant fail while exactly 8 compliant phases pass. -/
theorem claim4 :
    (∀ donnees : CycleData, regle2 donnees = true ↔
        8 ≤ (donnees.phases_de_vide.filter (fun ph => ph.conforme)).length) ∧
    (∀ donnees : CycleData, donnees.phases_de_vide = [] → regle2 donnees = false) ∧
    (∀ ligne_str ph, parsePhaseLine ligne_str = some ph →
        (ph.conforme = true ↔ ph.pression_kPa ≤ 18)) ∧
    regle2 { phases_de_vide := List.replicate 6 phaseConformeEx ++
               List.replicate 14 phaseNonConformeEx,
             phases_de_vide_kPa := [], temp_min_C := none, temp_max_C := none } = false ∧
    regle2 { phases_de_vide := List.replicate 8 phaseConformeEx,
             phases_de_vide_kPa := [], temp_min_C := none, temp_max_C := none } = true := by
  refine ⟨?_, ?_, ?_, by decide, by decide⟩
  · intro donnees
    cases hp : donnees.phases_de_vide with
    | nil =>
      simp [regle2, hp]
    | cons a l =>
      simp only [regle2, hp]
      rw [decide_eq_true_iff]
  · intro donnees hp
    simp [regle2, hp]
  · intro ligne_str ph hph
    simp only [parsePhaseLine] at hph
    split at hph
    · cases hph
    · split at hph
      · cases hph
      · split at hph
        · cases hph
        · split at hph
          · cases hph
            rw [decide_eq_true_iff]
          · cases hph

/-- Witness for C4 on an empty phase list. -/
theorem claim4_witness :
    regle2 { phases_de_vide := [], phases_de_vide_kPa := [],
             temp_min_C := none, temp_max_C := none } = false :=
  claim4.2.1 _ rfl

/-- C5: rule 1 is conformant iff both summary temperatures are present
and `temp_min_C ≥ 134.3` and `temp_max_C ≤ 136.4` (inclusive); the
summary `#40 1343`/`#41 1364` parses to exactly these boundary values and
passes; missing summary data fails. -/
theorem claim5 :
    (∀ donnees : CycleData, regle1 donnees = true ↔
        ∃ t_min t_max, donnees.temp_min_C = some t_min ∧
          donnees.temp_max_C = some t_max ∧ t_min ≥ 134.3 ∧ t_max ≤ 136.4) ∧
    (∃ donnees, analyser_cycle_complet_grs ("#40 1343\n#41 1364").data = some donnees ∧
        donnees.temp_min_C = some 134.3 ∧ donnees.temp_max_C = some 136.4 ∧
        regle1 donnees = true) ∧
    (∀ donnees : CycleData,
        donnees.temp_min_C = none ∨ donnees.temp_max_C = none →
        regle1 donnees = false) := by
  refine ⟨?_, ?_, ?_⟩
  · intro donnees
    cases hmin : donnees.temp_min_C with
    | none =>
      simp only [regle1, hmin]
      constructor
      · intro hcontra
        cases hcontra
      · rintro ⟨t_min, t_max, hcontra, -⟩
        cases hcontra
    | some t_min =>
      cases hmax : donnees.temp_max_C with
      | none =>
        simp only [regle1, hmin, hmax]
        constructor
        · intro hcontra
          cases hcontra
        · rintro ⟨u, v, -, hcontra, -⟩
          cases hcontra
      | some t_max =>
        simp only [regle1, hmin, hmax, Bool.and_eq_true, decide_eq_true_iff]
        constructor
        · rintro ⟨h1, h2⟩
          exact ⟨t_min, t_max, rfl, rfl, h1, h2⟩
        · rintro ⟨u, v, hu, hv, h1, h2⟩
          cases hu
          cases hv
          exact ⟨h1, h2⟩
  · exact ⟨⟨[], [], some 134.3, some 136.4⟩, by decide, rfl, rfl, by decide⟩
  · intro donnees hnone
    rcases hnone with hn | hn
    · simp [regle1, hn]
    · cases hmin : donnees.temp_min_C with
      | none => simp [regle1, hmin]
      | some t_min => simp [regle1, hmin, hn]

/-- Witness for C5 on a record with no summary temperatures. -/
theorem claim5_witness :
    regle1 { phases_de_vide := [], phases_de_vide_kPa := [],
             temp_min_C := none, temp_max_C := none } = false :=
  claim5.2.2 _ (Or.inl rfl)

/-- C7: a line containing the vapor-injection marker and an opening
brace, whose event body matches the measurement pattern with codes 1353
and 0175, yields a phase with temperature 135.3 °C, pressure 17.5 kPa and
`conforme = true`; a leading `10:15:02` token in the event body is
extracted as the timestamp. -/
theorem claim7 :
    (∀ ligne_str : List Char,
      containsSub ligne_str "Injection de vapeur".data = true →
      containsSub ligne_str [braceChar] = true →
      searchMesures (pyStrip (afterFirst braceChar ligne_str)) =
        some ("1353".data, "0175".data) →
      parsePhaseLine ligne_str =
        some ⟨matchHorodatage (pyStrip (afterFirst braceChar ligne_str)),
          135.3, 17.5, true⟩) ∧
    (∀ rest : List Char,
      matchHorodatage ("10:15:02 ".data ++ rest) = "10:15:02".data) := by
  constructor
  · intro ligne_str h1 h2 h3
    have hc1 : ¬ ¬ (containsSub ligne_str "Injection de vapeur".data = true) := by
      simp [h1]
    have hc2 : ¬ ¬ (containsSub ligne_str [braceChar] = true) := by
      simp [h2]
    simp only [parsePhaseLine]
    rw [if_neg hc1, if_neg hc2, h3]
    dsimp only
    rw [(by decide : pyFloat "1353".data = some 1353),
        (by decide : pyFloat "0175".data = some 175)]
    dsimp only
    rw [(by decide : (1353 : ℚ) / 10 = 135.3), (by decide : (175 : ℚ) / 10 = 17.5),
        (by decide : decide ((17.5 : ℚ) ≤ 18) = true)]
  · intro rest
    rfl

/-- Witness for C7 on a concrete vacuum line with a timestamped body. -/
theorem claim7_witness :
    parsePhaseLine ligneVapeurEx = some ⟨"10:15:02".data, 135.3, 17.5, true⟩ := by
  have h := claim7.1 ligneVapeurEx (by decide) (by decide) (by decide)
  rw [h]
  decide

/-- Witness for C6 at pressure 0. -/
theorem claim6_witness :
    check_pressure_conformity 137.1 0 =
      some (RegnaultStatus.decimaleHorsTable, none) ∧
    check_pressure_conformity 133.9 0 =
      some (RegnaultStatus.temperatureHorsTable, none) ∧
    check_pressure_conformity 138.0 0 =
      some (RegnaultStatus.temperatureHorsTable, none) :=
  claim6 0

end
